import Mathlib

/-!
Verification of the EntityDB specification against the source of
`entitydb/entitydb.py` and `entitydb/entitydb_gcs.py`.

The development shallowly embeds the parts of the code the claims are
about: storage is an association list from blob names to contents (the
most recent write first, as Google Cloud Storage uploads overwrite),
entity/component handles are plain structures, and the matching part of
`EntityDB_GCS.run` is a fold over the compiled query's component names.
Python exceptions are modelled with `Option`/error values: `none` (or an
explicit error constructor) marks the point where the source raises.
-/

/-! ## Constants from `entitydb/entitydb.py` (lines 10-13) -/

def EntityDB.PRIMARY_KEY : String := "_uid"

def EntityDB.ENTITY_TABLE : String := "_entities"

def EntityDB.ENTITY_REFERENCE : String := "_entity"

/-! ## Constants from `entitydb/entitydb_gcs.py` (lines 16-21) -/

def EntityDB_GCS.BLOBNAME_DELIMITER : Char := '/'

def EntityDB_GCS.ENTITY_FOLDER : String := "ent"

def EntityDB_GCS.COMPONENT_FOLDER : String := "cmp"

def EntityDB_GCS.DATA_FOLDER : String := "dat"

def EntityDB_GCS.UID_LENGTH : Nat := 16

/-! ## Entity and component handles

`entity.py` is not under `src/`; the handles are modelled from the spec
(section 3): an entity is a unique identifier (absent before the first
save) plus its loaded components; a component carries its type name, its
component identifier `_uid` (absent until persisted, mirroring the
missing Python attribute), and the declared fields of its type with
their values. `Entity.get_components()` is the list of loaded
components, and `EntityDB.get_variables_of` (referenced at
`entitydb_gcs.py` lines 60 and 68 but not defined under `src/`) is
modelled from the spec as the mapping of a component's declared fields
to their current values, i.e. the `fields` list below. -/

structure Component where
  name : String
  cid : Option String
  fields : List (String × String)
deriving DecidableEq

structure Entity where
  uid : Option String
  components : List Component
deriving DecidableEq

/-- Modelled from the spec: `serializers.serialize` is not under `src/`.
Section 6 specifies `encode(value) -> (payload, content_type)`; the
payload written for a field value is abstracted as the value itself
(field values are already abstract strings in this embedding). -/
def serialize (v : String) : String := v

/-! ## The blob store

The bucket is an association list from blob names to blob contents.
`upload_from_string` overwrites any existing blob with the same name, so
a write prepends and `getBlob` returns the most recent write. The
registry models `EntityDB.component_classes` (`entitydb.py` line 25) as
the list of registered component type names. -/

structure GCSState where
  blobs : List (String × String)
  registry : List String
deriving DecidableEq

/-- First-match lookup in an association list of blobs. -/
def getBlob : List (String × String) → String → Option String
  | [], _ => none
  | b :: rest, n => if b.1 = n then some b.2 else getBlob rest n

/-- One blob upload: the new write shadows any older blob of that name. -/
def writeBlob (bs : List (String × String)) (n v : String) : List (String × String) :=
  (n, v) :: bs

/-- A sequence of blob uploads, performed left to right. -/
def writeAll (bs : List (String × String)) (ws : List (String × String)) : List (String × String) :=
  ws.foldl (fun s w => writeBlob s w.1 w.2) bs

/-! ## Blob names used by the GCS backend (`entitydb_gcs.py` lines 53-62, 151) -/

/-- Forward-index blob `ent/{eid}/{component_name}-{cid}` (line 54). -/
def forwardIndexBlobName (eid cname k : String) : String :=
  EntityDB_GCS.ENTITY_FOLDER ++ "/" ++ eid ++ "/" ++ cname ++ "-" ++ k

/-- Type-index blob `cmp/{component_name}/{eid}-{cid}` (line 57). -/
def typeIndexBlobName (cname eid k : String) : String :=
  EntityDB_GCS.COMPONENT_FOLDER ++ "/" ++ cname ++ "/" ++ eid ++ "-" ++ k

/-- Field-store blob `dat/{cid}/{varname}` (line 151). -/
def dataBlobName (k varname : String) : String :=
  EntityDB_GCS.DATA_FOLDER ++ "/" ++ k ++ "/" ++ varname

/-- The writes of `_create_data_blob` for every declared field of one
component (`entitydb_gcs.py` lines 61-62 and 69-70 and 149-155). -/
def componentDataWrites (k : String) (fields : List (String × String)) : List (String × String) :=
  fields.map (fun fv => (dataBlobName k fv.1, serialize fv.2))

/-- The writes `add_entity` performs for one component with fresh cid
`k`: the forward-index blob, the type-index blob (both empty), then one
field-store blob per declared field (`entitydb_gcs.py` lines 53-62). -/
def addComponentWrites (eid : String) (c : Component) (k : String) : List (String × String) :=
  (forwardIndexBlobName eid c.name k, "") ::
  (typeIndexBlobName c.name eid k, "") ::
  componentDataWrites k c.fields

/-- All writes of `add_entity` over the component list, the `i`-th
component receiving the fresh component id `supply (s0 + i)` (the
successive outputs of `_random_cid`). -/
def addWritesFrom (eid : String) (supply : Nat → String) : Nat → List Component → List (String × String)
  | _, [] => []
  | i, c :: cs => addComponentWrites eid c (supply i) ++ addWritesFrom eid supply (i + 1) cs

/-- The components after `add_entity` assigned `component._uid` from the
successive outputs of `_random_cid` (`entitydb_gcs.py` line 50). -/
def assignCidsFrom (supply : Nat → String) : Nat → List Component → List Component
  | _, [] => []
  | i, c :: cs => Component.mk c.name (some (supply i)) c.fields :: assignCidsFrom supply (i + 1) cs

/-- `EntityDB_GCS._register_component_type` is called at line 48; the
registration itself is not under `src/`. Modelled from the spec
(section 2, Component Registry): insert-if-absent of the type name. -/
def registerComponentType (reg : List String) (cname : String) : List String :=
  if cname ∈ reg then reg else cname :: reg

/-- Embedding of `EntityDB_GCS.add_entity` (`entitydb_gcs.py` lines
39-64). The outputs of `_random_eid` / `_random_cid` are parameters
(`newEid`, `supply`): randomness is not embeddable, and the claims
quantify over the drawn identifiers. The method sets `entity.uid`,
registers and stamps each component with a fresh `_uid`, uploads the
forward-index, type-index and field-store blobs for each component, and
returns the new entity id. It performs no check on a pre-existing
`entity.uid`. -/
def EntityDB_GCS.add_entity (st : GCSState) (e : Entity) (newEid : String) (supply : Nat → String) :
    GCSState × Entity × String :=
  (GCSState.mk (writeAll st.blobs (addWritesFrom newEid supply 0 e.components))
      (e.components.foldl (fun r c => registerComponentType r c.name) st.registry),
   Entity.mk (some newEid) (assignCidsFrom supply 0 e.components),
   newEid)

/-- All writes of `update_entity`: one field-store blob per declared
field of each loaded component, reusing the stored `component._uid`. -/
def updateWrites : List Component → List (String × String)
  | [] => []
  | c :: cs => componentDataWrites (c.cid.getD "") c.fields ++ updateWrites cs

/-- Embedding of `EntityDB_GCS.update_entity` (`entitydb_gcs.py` lines
66-70): for every loaded component, re-upload the field-store blob of
every declared field under the component's existing `_uid`. A loaded
component without a `_uid` makes the Python loop raise AttributeError;
the failure is modelled as `none` (the claims concern the success case,
where every loaded component carries its identifier). -/
def EntityDB_GCS.update_entity (st : GCSState) (e : Entity) : Option GCSState :=
  if e.components.all (fun c => c.cid.isSome) then
    some (GCSState.mk (writeAll st.blobs (updateWrites e.components)) st.registry)
  else none

/-- Errors raised by the store facade. -/
inductive DBError where
  | unsavedEntity
  | notImplemented
deriving DecidableEq

/-- Python truthiness of `entity.uid`: `not entity.uid` holds for a
missing identifier and for an empty string. -/
def uidFalsy : Option String → Bool
  | none => true
  | some s => s.isEmpty

/-- Embedding of `EntityDB_GCS.delete_entity` (`entitydb_gcs.py` lines
72-75): raise `Exception("Entity has not been saved yet")` (modelled as
`DBError.unsavedEntity`) when the entity has no identifier; otherwise
call `super().delete_entity`, which raises NotImplementedError
(`entitydb.py` lines 48-49). Both paths raise before any storage write,
so the state is returned unchanged next to the raised error. -/
def EntityDB_GCS.delete_entity (st : GCSState) (e : Entity) : GCSState × Option DBError :=
  if uidFalsy e.uid then (st, some DBError.unsavedEntity)
  else (st, some DBError.notImplemented)

/-! ## The matching part of `EntityDB_GCS.run` (`entitydb_gcs.py` lines 77-122)

The type index consulted by `run` is abstracted as a function from a
component type name to the list of `(eid, cid)` pairs stored under the
blob prefix `cmp/{name}/`; the round-trip theorem for claim C10 shows
that parsing the blob names recovers exactly these pairs. The compiled
query (`system.include_components`, `system.exclude_components`,
produced by `_parse_system` in the missing `system.py`) is abstracted as
the two lists of component type names, in iteration order. -/

def TypeIndex : Type := String → List (String × String)

/-- The set `found_components` of entity ids stored under one component
type's prefix (`entitydb_gcs.py` lines 90-94). -/
def entityIdsOf (idx : TypeIndex) (cname : String) : Finset String :=
  ((idx cname).map Prod.fst).toFinset

/-- One iteration of the `include_components` loop (`entitydb_gcs.py`
lines 88-103). `matched_eids` starts as `None`; the update is guarded by
`if matched_eids:`, which is Python truthiness: the intersection is
taken only when the accumulator is a non-empty set, and otherwise — for
`None` but also for an empty set — the accumulator is replaced by the
current type's `found_components`. -/
def includeStep (idx : TypeIndex) (acc : Option (Finset String)) (cname : String) : Option (Finset String) :=
  let found := entityIdsOf idx cname
  match acc with
  | some s => if s.Nonempty then some (s ∩ found) else some found
  | none => some found

/-- The matched entity-id set computed by `EntityDB_GCS.run`
(`entitydb_gcs.py` lines 83-120): fold the include loop from `None`,
then subtract every excluded type's entity-id set (lines 106-112). When
the include loop leaves `matched_eids = None` (empty `required`), the
first `matched_eids -= exclude_eids` — or, with no exclusions, the final
`for eid in matched_eids` at line 119 — raises TypeError on `None`;
the crash is modelled as `none`. -/
def EntityDB_GCS.run_matched_eids (includeNames excludeNames : List String) (idx : TypeIndex) :
    Option (Finset String) :=
  match includeNames.foldl (includeStep idx) none with
  | none => none
  | some s => some (excludeNames.foldl (fun acc cname => acc \ entityIdsOf idx cname) s)

/-- Modelled from the spec: `_run_on_entities` lives in `system.py`,
which is not under `src/`. Section 4.3 specifies that the callable is
invoked once per matched entity, so `run` invokes its callable
`|matched_eids|` times (and not at all when matching crashes). -/
def EntityDB_GCS.run_invocation_count (includeNames excludeNames : List String) (idx : TypeIndex) :
    Option Nat :=
  (EntityDB_GCS.run_matched_eids includeNames excludeNames idx).map Finset.card

/-- Embedding of `EntityDB.count_matches` (`entitydb.py` lines 65-73):
the body raises NotImplementedError; the raise is modelled as `none`. -/
def EntityDB.count_matches (_includeNames _excludeNames : List String) (_idx : TypeIndex) : Option Nat :=
  none

/-- Embedding of `EntityDB_GCS.count_matches` (`entitydb_gcs.py` lines
124-125): it returns `super().count_matches(system_func)`, i.e. the
base-class method that raises NotImplementedError. -/
def EntityDB_GCS.count_matches (includeNames excludeNames : List String) (idx : TypeIndex) : Option Nat :=
  EntityDB.count_matches includeNames excludeNames idx

/-- Embedding of `EntityDB._create_component_from_data` (`entitydb.py`
lines 86-94): from the raw field mapping fetched from the field store,
keep every entry whose name is not in `[PRIMARY_KEY, ENTITY_REFERENCE]`
and pass the result as keyword arguments to the component constructor.
The value returned is the keyword-argument mapping the constructor
receives. -/
def EntityDB._create_component_from_data (componentData : List (String × String)) : List (String × String) :=
  componentData.filter (fun p => decide (p.1 ∉ [EntityDB.PRIMARY_KEY, EntityDB.ENTITY_REFERENCE]))

/-! ## Blob-name round trip (`entitydb_gcs.py` lines 53-57, 92-94, 160-170)

The round trip is stated at the character level: a blob name is its list
of characters (a Lean `String` is a wrapper around `List Char`). -/

/-- The alphabet of `_random_id` (`entitydb_gcs.py` line 162):
`string.ascii_letters + string.digits`. -/
def isAlnumAscii (c : Char) : Bool := c.isAlpha || c.isDigit

/-- Characterization of the outputs of `_random_eid` (`entitydb_gcs.py`
lines 164-166): sixteen characters drawn from letters and digits, the
first one a digit. -/
def isRandomEidOutput (s : List Char) : Prop :=
  s.length = EntityDB_GCS.UID_LENGTH ∧ (∀ c ∈ s, isAlnumAscii c) ∧
    s.head?.all Char.isDigit = true

/-- Characterization of the outputs of `_random_cid` (`entitydb_gcs.py`
lines 168-170): sixteen characters drawn from letters and digits, the
first one a letter. -/
def isRandomCidOutput (s : List Char) : Prop :=
  s.length = EntityDB_GCS.UID_LENGTH ∧ (∀ c ∈ s, isAlnumAscii c) ∧
    s.head?.all Char.isAlpha = true

instance (s : List Char) : Decidable (isRandomEidOutput s) := by
  unfold isRandomEidOutput
  infer_instance

instance (s : List Char) : Decidable (isRandomCidOutput s) := by
  unfold isRandomCidOutput
  infer_instance

/-- Python `str.split(d)` on a single-character separator, at the
character-list level: `"a-b".split("-") == ["a", "b"]`, and splitting
the empty string yields one empty piece. -/
def splitOnChar (d : Char) : List Char → List (List Char)
  | [] => [[]]
  | x :: xs =>
    let r := splitOnChar d xs
    if x = d then [] :: r else (x :: r.headI) :: r.tail

/-- The type-index blob name `f"{COMPONENT_FOLDER}/{component_name}/{entity.uid}-{component._uid}"`
built by `add_entity` (`entitydb_gcs.py` lines 56-57), as characters. -/
def typeIndexBlobNameChars (tname eid cid : List Char) : List Char :=
  EntityDB_GCS.COMPONENT_FOLDER.toList ++ EntityDB_GCS.BLOBNAME_DELIMITER ::
    (tname ++ EntityDB_GCS.BLOBNAME_DELIMITER :: (eid ++ '-' :: cid))

/-- The parse `run` applies to a type-index blob name
(`entitydb_gcs.py` line 93): take the segment after the last
`BLOBNAME_DELIMITER`, split it on `"-"`, and destructure into
`eid, cid`; Python raises ValueError unless the split has exactly two
pieces, modelled as `none`. -/
def parseRunBlobName (name : List Char) : Option (List Char × List Char) :=
  match (splitOnChar EntityDB_GCS.BLOBNAME_DELIMITER name).getLast? with
  | none => none
  | some seg =>
    match splitOnChar '-' seg with
    | [e, k] => some (e, k)
    | _ => none

/-! ## Helper lemmas: association-list lookup under sequences of writes -/

/-- Left-biased choice of two optional lookup results. -/
def firstSome (a b : Option String) : Option String :=
  match a with
  | some v => some v
  | none => b

lemma firstSome_assoc (a b c : Option String) :
    firstSome (firstSome a b) c = firstSome a (firstSome b c) := by
  cases a <;> simp [firstSome]

lemma getBlob_append (l1 l2 : List (String × String)) (n : String) :
    getBlob (l1 ++ l2) n = firstSome (getBlob l1 n) (getBlob l2 n) := by
  induction l1 with
  | nil => simp [getBlob, firstSome]
  | cons b rest ih =>
    by_cases h : b.1 = n <;> simp [getBlob, h, ih, firstSome]

lemma getBlob_writeAll (ws : List (String × String)) (bs : List (String × String)) (n : String) :
    getBlob (writeAll bs ws) n = firstSome (getBlob ws.reverse n) (getBlob bs n) := by
  induction ws generalizing bs with
  | nil => simp [writeAll, getBlob, firstSome]
  | cons w ws ih =>
    have hcons : getBlob (writeBlob bs w.1 w.2) n = firstSome (getBlob [w] n) (getBlob bs n) := by
      by_cases h : w.1 = n <;> simp [writeBlob, getBlob, h, firstSome]
    calc getBlob (writeAll bs (w :: ws)) n
        = getBlob (writeAll (writeBlob bs w.1 w.2) ws) n := rfl
      _ = firstSome (getBlob ws.reverse n) (getBlob (writeBlob bs w.1 w.2) n) := ih _
      _ = firstSome (getBlob ws.reverse n) (firstSome (getBlob [w] n) (getBlob bs n)) := by
          rw [hcons]
      _ = firstSome (firstSome (getBlob ws.reverse n) (getBlob [w] n)) (getBlob bs n) := by
          rw [firstSome_assoc]
      _ = firstSome (getBlob ((w :: ws).reverse) n) (getBlob bs n) := by
          rw [List.reverse_cons, getBlob_append]

lemma getBlob_eq_none_of_not_mem (ws : List (String × String)) (n : String)
    (h : n ∉ ws.map Prod.fst) : getBlob ws n = none := by
  induction ws with
  | nil => rfl
  | cons w rest ih =>
    simp only [List.map_cons, List.mem_cons, not_or] at h
    have hne : ¬w.1 = n := fun hc => h.1 hc.symm
    simp [getBlob, hne, ih h.2]

lemma getBlob_eq_some_of_mem_of_nodup (ws : List (String × String)) (n v : String)
    (hnd : (ws.map Prod.fst).Nodup) (hm : (n, v) ∈ ws) : getBlob ws n = some v := by
  induction ws with
  | nil => cases hm
  | cons w rest ih =>
    simp only [List.map_cons, List.nodup_cons] at hnd
    rcases List.mem_cons.mp hm with h | h
    · simp [getBlob, h.symm]
    · have hne : w.1 ≠ n := by
        intro he
        exact hnd.1 (he ▸ List.mem_map_of_mem Prod.fst h)
      simp [getBlob, hne, ih hnd.2 h]

lemma getBlob_writeAll_of_mem (ws bs : List (String × String)) (n v : String)
    (hnd : (ws.map Prod.fst).Nodup) (hm : (n, v) ∈ ws) :
    getBlob (writeAll bs ws) n = some v := by
  rw [getBlob_writeAll]
  have : getBlob ws.reverse n = some v := by
    apply getBlob_eq_some_of_mem_of_nodup
    · rw [List.map_reverse, List.nodup_reverse]
      exact hnd
    · exact List.mem_reverse.mpr hm
  rw [this]
  rfl

lemma getBlob_writeAll_of_not_mem (ws bs : List (String × String)) (n : String)
    (h : n ∉ ws.map Prod.fst) : getBlob (writeAll bs ws) n = getBlob bs n := by
  rw [getBlob_writeAll]
  have : getBlob ws.reverse n = none := by
    apply getBlob_eq_none_of_not_mem
    rw [List.map_reverse]
    intro hc
    exact h (List.mem_reverse.mp hc)
  rw [this]
  rfl

/-! ## Helper lemmas: `splitOnChar` -/

lemma splitOnChar_ne_nil (d : Char) (s : List Char) : splitOnChar d s ≠ [] := by
  cases s with
  | nil => simp [splitOnChar]
  | cons x xs =>
    simp only [splitOnChar]
    split <;> simp

lemma splitOnChar_of_not_mem (d : Char) (s : List Char) (h : ∀ c ∈ s, c ≠ d) :
    splitOnChar d s = [s] := by
  induction s with
  | nil => rfl
  | cons x xs ih =>
    have hx : x ≠ d := h x (List.mem_cons_self x xs)
    have hxs := ih (fun c hc => h c (List.mem_cons_of_mem x hc))
    simp [splitOnChar, hx, hxs]

lemma splitOnChar_append (d : Char) (xs ys : List Char) (h : ∀ c ∈ xs, c ≠ d) :
    splitOnChar d (xs ++ d :: ys) = xs :: splitOnChar d ys := by
  induction xs with
  | nil => simp [splitOnChar]
  | cons x xs ih =>
    have hx : x ≠ d := h x (List.mem_cons_self x xs)
    have hxs := ih (fun c hc => h c (List.mem_cons_of_mem x hc))
    simp [splitOnChar, hx, hxs]

lemma two_le_length_splitOnChar (d : Char) (s : List Char) (h : d ∈ s) :
    2 ≤ (splitOnChar d s).length := by
  induction s with
  | nil => cases h
  | cons x xs ih =>
    by_cases hx : x = d
    · have hpos : 0 < (splitOnChar d xs).length :=
        List.length_pos.mpr (splitOnChar_ne_nil d xs)
      subst hx
      simp [splitOnChar]
      omega
    · have hmem : d ∈ xs := by
        rcases List.mem_cons.mp h with h1 | h1
        · exact absurd h1.symm hx
        · exact h1
      have h2 := ih hmem
      rcases hr : splitOnChar d xs with _ | ⟨a, as⟩
      · exact absurd hr (splitOnChar_ne_nil d xs)
      · simp only [splitOnChar, hx, if_neg hx, hr, List.headI, List.tail_cons, List.length_cons]
        rw [hr] at h2
        simpa using h2

lemma getLast?_splitOnChar_append (d : Char) (xs ys : List Char) :
    (splitOnChar d (xs ++ d :: ys)).getLast? = (splitOnChar d ys).getLast? := by
  induction xs with
  | nil =>
    rcases hr : splitOnChar d ys with _ | ⟨a, as⟩
    · exact absurd hr (splitOnChar_ne_nil d ys)
    · simp [splitOnChar, hr, List.getLast?_cons_cons]
  | cons x xs ih =>
    by_cases hx : x = d
    · rcases hr : splitOnChar d (xs ++ d :: ys) with _ | ⟨a, as⟩
      · exact absurd hr (splitOnChar_ne_nil d _)
      · have : splitOnChar d (x :: (xs ++ d :: ys)) = [] :: a :: as := by
          simp [splitOnChar, hx, hr]
        rw [List.cons_append, this, List.getLast?_cons_cons, ← hr, ih]
    · have hlen : 2 ≤ (splitOnChar d (xs ++ d :: ys)).length :=
        two_le_length_splitOnChar d _ (by simp)
      rcases hr : splitOnChar d (xs ++ d :: ys) with _ | ⟨a, as⟩
      · exact absurd hr (splitOnChar_ne_nil d _)
      · rcases has : as with _ | ⟨b, bs⟩
        · rw [hr, has] at hlen
          simp at hlen
        · have hsp : splitOnChar d (x :: (xs ++ d :: ys)) = (x :: a) :: b :: bs := by
            simp [splitOnChar, hr, hx, has]
          rw [List.cons_append, hsp, List.getLast?_cons_cons]
          rw [hr, has, List.getLast?_cons_cons] at ih
          exact ih

/-! ## Helper lemmas: the exclusion fold of `run` -/

lemma foldl_sdiff_subset (idx : TypeIndex) :
    ∀ (l : List String) (acc : Finset String),
      l.foldl (fun a cname => a \ entityIdsOf idx cname) acc ⊆ acc
  | [], _ => subset_rfl
  | cname :: l, acc =>
    (foldl_sdiff_subset idx l (acc \ entityIdsOf idx cname)).trans Finset.sdiff_subset

lemma not_mem_foldl_sdiff (idx : TypeIndex) (t e : String) :
    ∀ (l : List String) (acc : Finset String), t ∈ l → e ∈ entityIdsOf idx t →
      e ∉ l.foldl (fun a cname => a \ entityIdsOf idx cname) acc
  | [], _, ht, _ => absurd ht (List.not_mem_nil t)
  | cname :: l, acc, ht, he => by
    rcases List.mem_cons.mp ht with h1 | h1
    · subst h1
      intro hmem
      have hin := foldl_sdiff_subset idx l (acc \ entityIdsOf idx t) hmem
      exact (Finset.mem_sdiff.mp hin).2 he
    · exact not_mem_foldl_sdiff idx t e l (acc \ entityIdsOf idx cname) h1 he

/-! ## Concrete type indexes used to evaluate the matching code -/

/-- A type index on which required type `"A"` has no entities while
required type `"B"` holds entity `"0entity000000001"`. -/
def idxBug : TypeIndex :=
  fun cname => if cname = "B" then [("0entity000000001", "bcomp00000000001")] else []

/-- A type index on which types `"A"` and `"B"` both hold entity
`"0entity000000001"`. -/
def idxAB : TypeIndex :=
  fun cname =>
    if cname = "A" then [("0entity000000001", "acomp00000000001")]
    else if cname = "B" then [("0entity000000001", "bcomp00000000001")]
    else []

/-- A type index on which type `"A"` holds exactly entity
`"0entity000000001"`. -/
def idxA : TypeIndex :=
  fun cname => if cname = "A" then [("0entity000000001", "acomp00000000001")] else []

/-- Claim C1 (code bug in `EntityDB_GCS.run`, `entitydb_gcs.py` lines
100-103): the guard `if matched_eids:` is Python truthiness, so when the
running candidate set is empty it is *replaced* by the next required
type's entity-id set instead of intersected with it. On a type index
where required type `"A"` has no entities and `"B"` holds one entity,
the query requiring `["A", "B"]` matches that entity, although the
intersection of the per-type entity-id sets is empty: an empty
intermediate intersection does not yield "no matches". -/
theorem run_empty_intersection_not_short_circuiting :
    entityIdsOf idxBug "A" = ∅ ∧
    entityIdsOf idxBug "A" ∩ entityIdsOf idxBug "B" = ∅ ∧
    EntityDB_GCS.run_matched_eids ["A", "B"] [] idxBug = some {"0entity000000001"} := by
  refine ⟨by decide, by decide, by decide⟩

/-- Claim C2 (code bug in `EntityDB_GCS.run`, `entitydb_gcs.py` lines
83-119): with an empty set of required component types the include loop
never runs, `matched_eids` remains `None`, and the subsequent
`matched_eids -= exclude_eids` (or the final `for eid in matched_eids`)
raises TypeError. The candidate set is never taken to be the set of all
known entity identifiers: the forward index is not consulted, and `run`
fails. -/
theorem run_empty_required_raises (excludeNames : List String) (idx : TypeIndex) :
    EntityDB_GCS.run_matched_eids [] excludeNames idx = none := rfl

/-- Claim C3: whenever the matching phase of `run` completes with a
matched set, every component type of the excluded set has had its full
entity-id set subtracted from the candidates, so an entity possessing an
excluded type is absent from the matched set — even when it possesses
every required type. -/
theorem run_excluded_entity_absent (includeNames excludeNames : List String) (idx : TypeIndex)
    (t e : String) (s : Finset String) (ht : t ∈ excludeNames) (he : e ∈ entityIdsOf idx t)
    (hs : EntityDB_GCS.run_matched_eids includeNames excludeNames idx = some s) :
    e ∉ s := by
  unfold EntityDB_GCS.run_matched_eids at hs
  rcases hfold : includeNames.foldl (includeStep idx) none with _ | s0
  · rw [hfold] at hs
    cases hs
  · rw [hfold] at hs
    injection hs with hs
    rw [← hs]
    exact not_mem_foldl_sdiff idx t e excludeNames s0 ht he

/-- Witness for claim C3: entity `"0entity000000001"` has both `"A"`
and `"B"`; the query requiring `["A"]` and excluding `["B"]` matches no
entity, and in particular not that one. -/
theorem run_excluded_entity_absent_witness :
    ("B" ∈ ["B"] ∧ "0entity000000001" ∈ entityIdsOf idxAB "B" ∧
      EntityDB_GCS.run_matched_eids ["A"] ["B"] idxAB = some ∅) ∧
    "0entity000000001" ∉ (∅ : Finset String) :=
  ⟨⟨by decide, by decide, by decide⟩,
    run_excluded_entity_absent ["A"] ["B"] idxAB "B" "0entity000000001" ∅
      (by decide) (by decide) (by decide)⟩

/-- Claim C4 (code bug): `EntityDB_GCS.count_matches` (`entitydb_gcs.py`
lines 124-125) only calls `super().count_matches`, whose body raises
NotImplementedError (`entitydb.py` lines 65-73) — it shares nothing with
the matcher and returns no number. On a query requiring `["A"]` over a
type index holding one matching entity, `run` invokes its callable once
(one matched entity), yet `count_matches` fails instead of returning 1. -/
theorem count_matches_raises_not_implemented :
    EntityDB_GCS.count_matches ["A"] [] idxA = none ∧
    EntityDB_GCS.run_invocation_count ["A"] [] idxA = some 1 := by
  refine ⟨rfl, by decide⟩

/-! ## Claim C10: blob-name round trip -/

lemma isAlnumAscii_ne_dash_slash (c : Char) (h : isAlnumAscii c = true) :
    c ≠ '-' ∧ c ≠ EntityDB_GCS.BLOBNAME_DELIMITER := by
  constructor <;> intro he <;> subst he <;> exact absurd h (by decide)

/-- Claim C10: for every entity id of the shape produced by
`_random_eid` and every component id of the shape produced by
`_random_cid` (sixteen alphanumeric characters, hence containing neither
`-` nor `/`), building the type-index blob name
`cmp/{type name}/{eid}-{cid}` as `add_entity` does and parsing it as
`run` does — the segment after the last `/`, split on `-` — recovers
exactly the original `(eid, cid)` pair, whatever the type name is. -/
theorem typeIndexBlobName_roundtrip (tname eid cid : List Char)
    (he : isRandomEidOutput eid) (hc : isRandomCidOutput cid) :
    parseRunBlobName (typeIndexBlobNameChars tname eid cid) = some (eid, cid) := by
  obtain ⟨-, heal, -⟩ := he
  obtain ⟨-, hcal, -⟩ := hc
  have heDash : ∀ c ∈ eid, c ≠ '-' := fun c hm => (isAlnumAscii_ne_dash_slash c (heal c hm)).1
  have hcDash : ∀ c ∈ cid, c ≠ '-' := fun c hm => (isAlnumAscii_ne_dash_slash c (hcal c hm)).1
  have hrest : ∀ c ∈ eid ++ '-' :: cid, c ≠ EntityDB_GCS.BLOBNAME_DELIMITER := by
    intro c hm
    rcases List.mem_append.mp hm with h | h
    · exact (isAlnumAscii_ne_dash_slash c (heal c h)).2
    · rcases List.mem_cons.mp h with h | h
      · subst h
        decide
      · exact (isAlnumAscii_ne_dash_slash c (hcal c h)).2
  have h1 : (splitOnChar EntityDB_GCS.BLOBNAME_DELIMITER (typeIndexBlobNameChars tname eid cid)).getLast? =
      some (eid ++ '-' :: cid) := by
    unfold typeIndexBlobNameChars
    rw [getLast?_splitOnChar_append, getLast?_splitOnChar_append,
      splitOnChar_of_not_mem _ _ hrest]
    rfl
  have h2 : splitOnChar '-' (eid ++ '-' :: cid) = [eid, cid] := by
    rw [splitOnChar_append '-' eid cid heDash, splitOnChar_of_not_mem '-' cid hcDash]
  unfold parseRunBlobName
  rw [h1]
  simp [h2]

/-- A sample output of `_random_eid`: a digit then fifteen letters or
digits. -/
def eidSample : List Char := "0a1b2c3d4e5f6g7h".toList

/-- A sample output of `_random_cid`: a letter then fifteen letters or
digits. -/
def cidSample : List Char := "a0b1c2d3e4f5g6h7".toList

/-- Witness for claim C10 at the type name `Position` and sample ids. -/
theorem typeIndexBlobName_roundtrip_witness :
    (isRandomEidOutput eidSample ∧ isRandomCidOutput cidSample) ∧
    parseRunBlobName (typeIndexBlobNameChars "Position".toList eidSample cidSample) =
      some (eidSample, cidSample) :=
  ⟨⟨by decide, by decide⟩,
    typeIndexBlobName_roundtrip "Position".toList eidSample cidSample (by decide) (by decide)⟩

/-! ## Helper lemmas: writes and components of `add_entity` and `update_entity` -/

lemma assignCidsFrom_length (supply : Nat → String) :
    ∀ (comps : List Component) (s0 : Nat), (assignCidsFrom supply s0 comps).length = comps.length
  | [], _ => rfl
  | _ :: cs, s0 => by simp [assignCidsFrom, assignCidsFrom_length supply cs (s0 + 1)]

lemma assignCidsFrom_getElem? (supply : Nat → String) :
    ∀ (comps : List Component) (s0 i : Nat) (c : Component), comps[i]? = some c →
      (assignCidsFrom supply s0 comps)[i]? =
        some (Component.mk c.name (some (supply (s0 + i))) c.fields) := by
  intro comps
  induction comps with
  | nil =>
    intro s0 i c h
    simp at h
  | cons hd tl ih =>
    intro s0 i c h
    cases i with
    | zero =>
      simp only [List.getElem?_cons_zero, Option.some.injEq] at h
      subst h
      simp [assignCidsFrom]
    | succ i =>
      simp only [List.getElem?_cons_succ] at h
      have := ih (s0 + 1) i c h
      have harith : s0 + 1 + i = s0 + (i + 1) := by omega
      rw [harith] at this
      simpa [assignCidsFrom] using this

lemma mem_addWritesFrom (eid : String) (supply : Nat → String) :
    ∀ (comps : List Component) (s0 i : Nat) (c : Component), comps[i]? = some c →
      ∀ x ∈ addComponentWrites eid c (supply (s0 + i)), x ∈ addWritesFrom eid supply s0 comps := by
  intro comps
  induction comps with
  | nil =>
    intro s0 i c h
    simp at h
  | cons hd tl ih =>
    intro s0 i c h x hx
    cases i with
    | zero =>
      simp only [List.getElem?_cons_zero, Option.some.injEq] at h
      subst h
      exact List.mem_append_left _ hx
    | succ i =>
      simp only [List.getElem?_cons_succ] at h
      refine List.mem_append_right _ ?_
      have harith : s0 + (i + 1) = s0 + 1 + i := by omega
      rw [harith] at hx
      exact ih (s0 + 1) i c h x hx

lemma mem_updateWrites :
    ∀ (comps : List Component) (c : Component), c ∈ comps → ∀ k, c.cid = some k →
      ∀ fv ∈ c.fields, (dataBlobName k fv.1, serialize fv.2) ∈ updateWrites comps := by
  intro comps
  induction comps with
  | nil =>
    intro c hc
    cases hc
  | cons hd tl ih =>
    intro c hc k hk fv hfv
    rcases List.mem_cons.mp hc with h | h
    · subst h
      apply List.mem_append_left
      simp only [componentDataWrites, hk, Option.getD_some]
      exact List.mem_map_of_mem _ hfv
    · exact List.mem_append_right _ (ih c h k hk fv hfv)

/-- Claim C8: on a not-yet-persisted entity, `add_entity` assigns the
drawn entity identifier and, to the `i`-th component, the `i`-th drawn
component identifier; uploads, for every component, the forward-index
blob, the type-index blob, and one field-store blob per declared field;
and returns the assigned entity identifier. Freshness of the drawn
identifiers is the hypothesis that the uploaded blob names are pairwise
distinct. -/
theorem add_entity_fresh_assigns_and_writes (st : GCSState) (e : Entity) (newEid : String)
    (supply : Nat → String) (hfresh : e.uid = none)
    (hnd : ((addWritesFrom newEid supply 0 e.components).map Prod.fst).Nodup) :
    (EntityDB_GCS.add_entity st e newEid supply).2.2 = newEid ∧
    (EntityDB_GCS.add_entity st e newEid supply).2.1.uid = some newEid ∧
    (EntityDB_GCS.add_entity st e newEid supply).2.1.components.length = e.components.length ∧
    ∀ i c, e.components[i]? = some c →
      (EntityDB_GCS.add_entity st e newEid supply).2.1.components[i]? =
        some (Component.mk c.name (some (supply i)) c.fields) ∧
      getBlob (EntityDB_GCS.add_entity st e newEid supply).1.blobs
        (forwardIndexBlobName newEid c.name (supply i)) = some "" ∧
      getBlob (EntityDB_GCS.add_entity st e newEid supply).1.blobs
        (typeIndexBlobName c.name newEid (supply i)) = some "" ∧
      ∀ fv ∈ c.fields,
        getBlob (EntityDB_GCS.add_entity st e newEid supply).1.blobs
          (dataBlobName (supply i) fv.1) = some (serialize fv.2) := by
  refine ⟨rfl, rfl, assignCidsFrom_length supply e.components 0, ?_⟩
  intro i c hic
  have hassign := assignCidsFrom_getElem? supply e.components 0 i c hic
  rw [Nat.zero_add] at hassign
  refine ⟨hassign, ?_, ?_, ?_⟩
  · apply getBlob_writeAll_of_mem _ _ _ _ hnd
    apply mem_addWritesFrom newEid supply e.components 0 i c hic
    rw [Nat.zero_add]
    exact List.mem_cons_self _ _
  · apply getBlob_writeAll_of_mem _ _ _ _ hnd
    apply mem_addWritesFrom newEid supply e.components 0 i c hic
    rw [Nat.zero_add]
    exact List.mem_cons_of_mem _ (List.mem_cons_self _ _)
  · intro fv hfv
    apply getBlob_writeAll_of_mem _ _ _ _ hnd
    apply mem_addWritesFrom newEid supply e.components 0 i c hic
    rw [Nat.zero_add]
    refine List.mem_cons_of_mem _ (List.mem_cons_of_mem _ ?_)
    exact List.mem_map_of_mem _ hfv

/-! ## Concrete entities and states used to evaluate the lifecycle code -/

/-- An empty bucket. -/
def sampleState : GCSState := GCSState.mk [] []

/-- A bucket already holding the field-store record of a component that
is persisted but not loaded on any in-memory entity handle. -/
def sampleStateWithB : GCSState :=
  GCSState.mk [("dat/zcomp00000000001/hp", "9")] ["Health"]

/-- A brand-new entity: no identifier, one loaded `Position` component
that has never been persisted. -/
def sampleFresh : Entity :=
  Entity.mk none [Component.mk "Position" none [("x", "1"), ("y", "2")]]

/-- A persisted entity handle: it carries an identifier and one loaded
`Position` component with its stored component identifier. -/
def samplePersisted : Entity :=
  Entity.mk (some "0entity000000001")
    [Component.mk "Position" (some "acomp00000000001") [("x", "1"), ("y", "2")]]

/-- A supply of drawn component identifiers. -/
def sampleSupply : Nat → String := fun _ => "acomp00000000001"

/-- Witness for claim C8: adding the fresh sample entity to the empty
bucket with drawn ids returns the drawn entity id and uploads the
type-index blob `cmp/Position/0entity000000001-acomp00000000001`. -/
theorem add_entity_fresh_assigns_and_writes_witness :
    (sampleFresh.uid = none ∧
      ((addWritesFrom "0entity000000001" sampleSupply 0 sampleFresh.components).map Prod.fst).Nodup) ∧
    (EntityDB_GCS.add_entity sampleState sampleFresh "0entity000000001" sampleSupply).2.2 =
      "0entity000000001" ∧
    getBlob (EntityDB_GCS.add_entity sampleState sampleFresh "0entity000000001" sampleSupply).1.blobs
      (typeIndexBlobName "Position" "0entity000000001" "acomp00000000001") = some "" :=
  ⟨⟨rfl, by decide⟩,
    (add_entity_fresh_assigns_and_writes sampleState sampleFresh "0entity000000001" sampleSupply
      rfl (by decide)).1,
    ((add_entity_fresh_assigns_and_writes sampleState sampleFresh "0entity000000001" sampleSupply
      rfl (by decide)).2.2.2 0 (Component.mk "Position" none [("x", "1"), ("y", "2")]) rfl).2.2.1⟩

/-- Claim C5 is false of the code: `EntityDB_GCS.add_entity`
(`entitydb_gcs.py` lines 39-64) never checks `entity.uid`. Called on the
already-persisted sample entity it raises nothing: it returns a new
identifier, overwrites `entity.uid` with it, and uploads fresh index
records. -/
theorem add_entity_on_persisted_counterexample :
    samplePersisted.uid = some "0entity000000001" ∧
    (EntityDB_GCS.add_entity sampleState samplePersisted "0entity000000002" sampleSupply).2.2 =
      "0entity000000002" ∧
    (EntityDB_GCS.add_entity sampleState samplePersisted "0entity000000002" sampleSupply).2.1.uid =
      some "0entity000000002" ∧
    getBlob (EntityDB_GCS.add_entity sampleState samplePersisted "0entity000000002" sampleSupply).1.blobs
      (typeIndexBlobName "Position" "0entity000000002" "acomp00000000001") = some "" := by
  refine ⟨rfl, rfl, rfl, by decide⟩

/-- Claim C5 amended: calling `add_entity` on an entity that already
carries an identifier does not fail; it assigns a fresh entity
identifier (overwriting the existing one), stamps every component with a
fresh component identifier, uploads the index and field-store records
again, and returns the new identifier. -/
theorem add_entity_on_persisted_no_error (st : GCSState) (e : Entity) (newEid : String)
    (supply : Nat → String) (hper : e.uid.isSome = true) :
    (EntityDB_GCS.add_entity st e newEid supply).2.2 = newEid ∧
    (EntityDB_GCS.add_entity st e newEid supply).2.1.uid = some newEid ∧
    (EntityDB_GCS.add_entity st e newEid supply).1.blobs =
      writeAll st.blobs (addWritesFrom newEid supply 0 e.components) :=
  ⟨rfl, rfl, rfl⟩

/-- Witness for the amended claim C5 at the persisted sample entity. -/
theorem add_entity_on_persisted_no_error_witness :
    samplePersisted.uid.isSome = true ∧
    (EntityDB_GCS.add_entity sampleState samplePersisted "0entity000000002" sampleSupply).2.2 =
      "0entity000000002" ∧
    (EntityDB_GCS.add_entity sampleState samplePersisted "0entity000000002" sampleSupply).2.1.uid =
      some "0entity000000002" ∧
    (EntityDB_GCS.add_entity sampleState samplePersisted "0entity000000002" sampleSupply).1.blobs =
      writeAll sampleState.blobs
        (addWritesFrom "0entity000000002" sampleSupply 0 samplePersisted.components) :=
  ⟨rfl, add_entity_on_persisted_no_error sampleState samplePersisted "0entity000000002"
    sampleSupply rfl⟩

/-- Claim C6: on a persisted entity whose loaded components all carry
their stored component identifiers, `update_entity` succeeds and
re-uploads the field-store blob of every declared field of every loaded
component under the component's existing identifier, and every blob it
does not write — in particular the records of components that are not
loaded on the handle — is unchanged. The registry is untouched.
Freshness side condition: the written blob names are pairwise distinct
(distinct loaded components have distinct identifiers and each
component's declared field names are distinct). -/
theorem update_entity_overwrites_exactly_loaded (st : GCSState) (e : Entity)
    (hper : e.uid.isSome = true)
    (hall : ∀ c ∈ e.components, c.cid.isSome = true)
    (hnd : ((updateWrites e.components).map Prod.fst).Nodup) :
    ∃ st', EntityDB_GCS.update_entity st e = some st' ∧
      st'.registry = st.registry ∧
      (∀ c ∈ e.components, ∀ k, c.cid = some k → ∀ fv ∈ c.fields,
        getBlob st'.blobs (dataBlobName k fv.1) = some (serialize fv.2)) ∧
      (∀ n, n ∉ (updateWrites e.components).map Prod.fst →
        getBlob st'.blobs n = getBlob st.blobs n) := by
  have hallb : e.components.all (fun c => c.cid.isSome) = true :=
    List.all_eq_true.mpr (fun c hc => hall c hc)
  refine ⟨GCSState.mk (writeAll st.blobs (updateWrites e.components)) st.registry,
    by simp [EntityDB_GCS.update_entity, hallb], rfl, ?_, ?_⟩
  · intro c hc k hk fv hfv
    exact getBlob_writeAll_of_mem _ _ _ _ hnd (mem_updateWrites e.components c hc k hk fv hfv)
  · intro n hn
    exact getBlob_writeAll_of_not_mem _ _ _ hn

/-- Witness for claim C6: updating the persisted sample entity in a
bucket that also holds the record of an unloaded `Health` component
overwrites `dat/acomp00000000001/x` and leaves
`dat/zcomp00000000001/hp` exactly as it was. -/
theorem update_entity_overwrites_exactly_loaded_witness :
    (samplePersisted.uid.isSome = true ∧
      (∀ c ∈ samplePersisted.components, c.cid.isSome = true) ∧
      ((updateWrites samplePersisted.components).map Prod.fst).Nodup) ∧
    ∃ st', EntityDB_GCS.update_entity sampleStateWithB samplePersisted = some st' ∧
      getBlob st'.blobs (dataBlobName "acomp00000000001" "x") = some (serialize "1") ∧
      getBlob st'.blobs "dat/zcomp00000000001/hp" =
        getBlob sampleStateWithB.blobs "dat/zcomp00000000001/hp" := by
  refine ⟨⟨rfl, by decide, by decide⟩, ?_⟩
  obtain ⟨st', hsome, hreg, hw, hf⟩ :=
    update_entity_overwrites_exactly_loaded sampleStateWithB samplePersisted rfl
      (by decide) (by decide)
  refine ⟨st', hsome, ?_, hf "dat/zcomp00000000001/hp" (by decide)⟩
  exact hw (Component.mk "Position" (some "acomp00000000001") [("x", "1"), ("y", "2")])
    (by decide) "acomp00000000001" rfl ("x", "1") (by decide)

/-- Claim C7: `delete_entity` on an entity that carries no identifier
fails with the unsaved-entity error (`entitydb_gcs.py` lines 72-74
raise before any backend call), leaving the blob store and registry
unchanged. -/
theorem delete_entity_unsaved_fails_unchanged (st : GCSState) (e : Entity) (h : e.uid = none) :
    EntityDB_GCS.delete_entity st e = (st, some DBError.unsavedEntity) := by
  simp [EntityDB_GCS.delete_entity, uidFalsy, h]

/-- Witness for claim C7 at the never-saved sample entity. -/
theorem delete_entity_unsaved_fails_unchanged_witness :
    sampleFresh.uid = none ∧
    EntityDB_GCS.delete_entity sampleState sampleFresh = (sampleState, some DBError.unsavedEntity) :=
  ⟨rfl, delete_entity_unsaved_fails_unchanged sampleState sampleFresh rfl⟩

/-- Claim C9 is false of the code: `_create_component_from_data`
(`entitydb.py` lines 86-94) filters the fetched mapping only against
the two names `_uid` and `_entity`; it does not consult the type's
declared field list. A fetched field `extra` that is not among the
declared fields `["x"]` is still passed to the constructor. -/
theorem create_component_passes_undeclared_field :
    ("extra", "2") ∈ EntityDB._create_component_from_data [("x", "1"), ("extra", "2")] ∧
    "extra" ∉ ["x"] := by
  refine ⟨by decide, by decide⟩

/-- Claim C9 amended: constructing the component instance removes from
the fetched field mapping exactly the entries named `_uid` (primary
key) and `_entity` (entity back-reference); every other fetched field —
declared or not — is passed to the constructor with its value
unchanged. -/
theorem create_component_filters_exactly_pk_and_backref
    (componentData : List (String × String)) (p : String × String) :
    p ∈ EntityDB._create_component_from_data componentData ↔
      p ∈ componentData ∧ p.1 ∉ [EntityDB.PRIMARY_KEY, EntityDB.ENTITY_REFERENCE] := by
  simp [EntityDB._create_component_from_data, List.mem_filter]
